import Mathlib

/-!
# Weylus `AutoPilotDevice` — shallow embedding and verification

This file embeds `src/input/autopilot_device.rs` of the Weylus repository:
the input-injection device that turns normalized pointer, wheel and keyboard
events into platform input primitives.

Modelling conventions:
* `f64` coordinates and pressures are embedded as `ℚ` (exact arithmetic).
* The `Capturable` trait object is embedded by the observable results of its
  two methods for the current event (`before_input`, `geometry`); the screen
  bounds providers (`screen_coordsys` on macOS, `screen_size` elsewhere) are
  passed as explicit parameters.
* A platform primitive is a call to the emission layer
  (`send_tablet_proximity_event` / `send_mouse_event` on macOS,
  `mouse::move_to` / `mouse::toggle` elsewhere, `mouse::scroll`,
  `autopilot::key::toggle`); each device operation returns the list of
  primitives it emitted, in order.  A Rust panic (the `.unwrap()` on the
  geometry result) is embedded as `none`.
* The two `cfg` variants of `send_pointer_event` are embedded separately:
  `send_pointer_event_macos` (advanced, pressure-tablet) and
  `send_pointer_event_base` (baseline).
-/

namespace Weylus

/-- `PointerEventType` from the protocol layer (the variants this module
matches on). -/
inductive PointerEventType
  | DOWN | UP | MOVE | OVER | ENTER | LEAVE | OUT | CANCEL
deriving DecidableEq, Repr

/-- The fields of `protocol::PointerEvent` read by `autopilot_device.rs`. -/
structure PointerEvent where
  event_type : PointerEventType
  x : ℚ
  y : ℚ
  pressure : ℚ
  is_primary : Bool
deriving DecidableEq, Repr

/-- The field of `protocol::WheelEvent` read by `send_wheel_event`
(`dy: i32`; only its sign is consumed). -/
structure WheelEvent where
  dy : ℤ
deriving DecidableEq, Repr

/-- `KeyboardEventType` from the protocol layer. -/
inductive KeyboardEventType
  | UP | DOWN | REPEAT
deriving DecidableEq, Repr

/-- The fields of `protocol::KeyboardEvent` read by `send_keyboard_event`. -/
structure KeyboardEvent where
  code : String
  key : String
  event_type : KeyboardEventType
  ctrl : Bool
  alt : Bool
  meta : Bool
  shift : Bool
deriving DecidableEq, Repr

/-- `Geometry::Relative(x, y, width, height)`: the capture target's rectangle
as fractions of the screen. -/
structure Geometry where
  x : ℚ
  y : ℚ
  width : ℚ
  height : ℚ
deriving DecidableEq, Repr

/-- Decidable equality for `Except`, needed to evaluate concrete witnesses. -/
instance {ε α : Type} [DecidableEq ε] [DecidableEq α] :
    DecidableEq (Except ε α) := fun a b =>
  match a, b with
  | .error x, .error y =>
    if h : x = y then isTrue (by rw [h])
    else isFalse (by intro hc; cases hc; exact h rfl)
  | .ok x, .ok y =>
    if h : x = y then isTrue (by rw [h])
    else isFalse (by intro hc; cases hc; exact h rfl)
  | .error _, .ok _ => isFalse (by intro h; cases h)
  | .ok _, .error _ => isFalse (by intro h; cases h)

/-- The `Capturable` collaborator, embedded by the results its two methods
return for the current event. -/
structure Capturable where
  before_input : Except String Unit
  geometry : Except String Geometry
deriving DecidableEq, Repr

/-- `autopilot::geometry::Size` as returned by `screen_size()` (infallible). -/
structure Size where
  width : ℚ
  height : ℚ
deriving DecidableEq, Repr

/-- Device state of the macOS (advanced, pressure-tablet) variant of
`AutoPilotDevice`: the capture target plus the two mutable flags. -/
structure MacDevice where
  capturable : Capturable
  left_button_down : Bool
  in_proximity : Bool
deriving DecidableEq, Repr

/-- `AutoPilotDevice::new` on macOS: both flags start `false`. -/
def MacDevice.new (c : Capturable) : MacDevice :=
  { capturable := c, left_button_down := false, in_proximity := false }

/-- Device state of the baseline (non-macOS) variant of `AutoPilotDevice`. -/
structure BaseDevice where
  capturable : Capturable
  left_button_down : Bool
deriving DecidableEq, Repr

/-- `AutoPilotDevice::new` on the baseline variant. -/
def BaseDevice.new (c : Capturable) : BaseDevice :=
  { capturable := c, left_button_down := false }

/-- The CoreGraphics mouse event types this module constructs. -/
inductive CGEventType
  | LeftMouseDown | LeftMouseUp | LeftMouseDragged | MouseMoved
deriving DecidableEq, Repr

/-- A platform primitive of the macOS variant: a call to
`send_tablet_proximity_event` or to `send_mouse_event`. -/
inductive MacPrimitive
  | tabletProximity (entering : Bool)
  | mouseEvent (t : CGEventType) (x y pressure : ℚ)
deriving DecidableEq, Repr

/-- A platform primitive of the baseline variant: `mouse::move_to` or
`mouse::toggle(Button::Left, down)`. -/
inductive BasePrimitive
  | moveTo (x y : ℚ)
  | toggle (down : Bool)
deriving DecidableEq, Repr

/-- `autopilot::mouse::ScrollDirection`. -/
inductive ScrollDirection
  | Up | Down
deriving DecidableEq, Repr

/-- A call to `mouse::scroll(direction, clicks)`. -/
structure ScrollCall where
  dir : ScrollDirection
  clicks : ℕ
deriving DecidableEq, Repr

/-- The coordinate computation shared by both variants of
`send_pointer_event`:
`((x * width_rel + x_rel) * width, (y * height_rel + y_rel) * height)`. -/
def map_coords (g : Geometry) (width height x y : ℚ) : ℚ × ℚ :=
  ((x * g.width + g.x) * width, (y * g.height + g.y) * height)

/-- The macOS (advanced) variant of `AutoPilotDevice::send_pointer_event`.
`screen` is the result of `capturable::core_graphics::screen_coordsys()`
(origin x, origin y, width, height).  Returns the updated device and the
emitted primitives, or `none` for the panic of `geometry().unwrap()`. -/
def send_pointer_event_macos (screen : Except String (ℚ × ℚ × ℚ × ℚ))
    (dev : MacDevice) (e : PointerEvent) :
    Option (MacDevice × List MacPrimitive) :=
  if !e.is_primary then some (dev, [])
  else
    match dev.capturable.before_input with
    | .error _ => some (dev, [])
    | .ok _ =>
      match dev.capturable.geometry with
      | .error _ => none
      | .ok g =>
        match screen with
        | .error _ => some (dev, [])
        | .ok (_, _, width, height) =>
          let screen_x := (map_coords g width height e.x e.y).1
          let screen_y := (map_coords g width height e.x e.y).2
          match e.event_type with
          | .DOWN =>
            if !dev.left_button_down then
              if !dev.in_proximity then
                some ({ dev with in_proximity := true, left_button_down := true },
                  [MacPrimitive.tabletProximity true,
                   MacPrimitive.mouseEvent .LeftMouseDown screen_x screen_y e.pressure])
              else
                some ({ dev with left_button_down := true },
                  [MacPrimitive.mouseEvent .LeftMouseDown screen_x screen_y e.pressure])
            else some (dev, [])
          | .UP | .CANCEL | .LEAVE | .OUT =>
            if dev.left_button_down then
              if dev.in_proximity then
                some ({ dev with left_button_down := false, in_proximity := false },
                  [MacPrimitive.mouseEvent .LeftMouseUp screen_x screen_y 0,
                   MacPrimitive.tabletProximity false])
              else
                some ({ dev with left_button_down := false },
                  [MacPrimitive.mouseEvent .LeftMouseUp screen_x screen_y 0])
            else some (dev, [])
          | .MOVE | .OVER | .ENTER =>
            if dev.left_button_down then
              some (dev,
                [MacPrimitive.mouseEvent .LeftMouseDragged screen_x screen_y e.pressure])
            else
              some (dev, [MacPrimitive.mouseEvent .MouseMoved screen_x screen_y 0])

/-- The baseline (non-macOS) variant of `AutoPilotDevice::send_pointer_event`.
`screen` is the result of `autopilot::screen::size()`.  The unconditional
`mouse::move_to` call is emitted for every accepted event (a failing
`move_to` is only logged, so the call itself is still made); `none` embeds
the panic of `geometry().unwrap()`. -/
def send_pointer_event_base (screen : Size) (dev : BaseDevice)
    (e : PointerEvent) : Option (BaseDevice × List BasePrimitive) :=
  if !e.is_primary then some (dev, [])
  else
    match dev.capturable.before_input with
    | .error _ => some (dev, [])
    | .ok _ =>
      match dev.capturable.geometry with
      | .error _ => none
      | .ok g =>
        let px := (map_coords g screen.width screen.height e.x e.y).1
        let py := (map_coords g screen.width screen.height e.x e.y).2
        match e.event_type with
        | .DOWN =>
          if !dev.left_button_down then
            some ({ dev with left_button_down := true },
              [BasePrimitive.moveTo px py, BasePrimitive.toggle true])
          else some (dev, [BasePrimitive.moveTo px py])
        | .UP | .CANCEL | .LEAVE | .OUT =>
          if dev.left_button_down then
            some ({ dev with left_button_down := false },
              [BasePrimitive.moveTo px py, BasePrimitive.toggle false])
          else some (dev, [BasePrimitive.moveTo px py])
        | .MOVE | .OVER | .ENTER =>
          some (dev, [BasePrimitive.moveTo px py])

/-- `AutoPilotDevice::send_wheel_event`: one scroll unit up for positive
`dy`, one down for negative, nothing for zero.  The function body reads no
device field, so it is embedded generically over the device state. -/
def send_wheel_event {α : Type} (dev : α) (e : WheelEvent) :
    α × List ScrollCall :=
  (dev,
    if 0 < e.dy then [{ dir := ScrollDirection.Up, clicks := 1 }]
    else if e.dy < 0 then [{ dir := ScrollDirection.Down, clicks := 1 }]
    else [])

/-- `autopilot::key::KeyCode` (the constructors this module maps to). -/
inductive KeyCode
  | Escape | Return | Backspace | Tab | Space | CapsLock
  | F1 | F2 | F3 | F4 | F5 | F6 | F7 | F8 | F9 | F10 | F11 | F12
  | F13 | F14 | F15 | F16 | F17 | F18 | F19 | F20 | F21 | F22 | F23 | F24
  | Home | UpArrow | PageUp | LeftArrow | RightArrow | End | DownArrow
  | PageDown | Delete | Control | Alt | Meta | Shift
deriving DecidableEq, Repr

/-- `autopilot::key::Flag` (modifier flags). -/
inductive Flag
  | Control | Alt | Meta | Shift
deriving DecidableEq, Repr

/-- The first argument of `autopilot::key::toggle`: a mapped physical key
(`Code`) or a character (`Character`, the fallback path). -/
inductive Key
  | Code (k : KeyCode)
  | Character (c : Char)
deriving DecidableEq, Repr

/-- A call to `autopilot::key::toggle(key, down, flags, 0)`. -/
structure KeyToggle where
  key : Key
  down : Bool
  flags : List Flag
deriving DecidableEq, Repr

/-- The fixed key table `map_key` inside `send_keyboard_event`. -/
def map_key (code : String) : Option KeyCode :=
  match code with
  | "Escape" => some KeyCode.Escape
  | "Enter" => some KeyCode.Return
  | "Backspace" => some KeyCode.Backspace
  | "Tab" => some KeyCode.Tab
  | "Space" => some KeyCode.Space
  | "CapsLock" => some KeyCode.CapsLock
  | "F1" => some KeyCode.F1
  | "F2" => some KeyCode.F2
  | "F3" => some KeyCode.F3
  | "F4" => some KeyCode.F4
  | "F5" => some KeyCode.F5
  | "F6" => some KeyCode.F6
  | "F7" => some KeyCode.F7
  | "F8" => some KeyCode.F8
  | "F9" => some KeyCode.F9
  | "F10" => some KeyCode.F10
  | "F11" => some KeyCode.F11
  | "F12" => some KeyCode.F12
  | "F13" => some KeyCode.F13
  | "F14" => some KeyCode.F14
  | "F15" => some KeyCode.F15
  | "F16" => some KeyCode.F16
  | "F17" => some KeyCode.F17
  | "F18" => some KeyCode.F18
  | "F19" => some KeyCode.F19
  | "F20" => some KeyCode.F20
  | "F21" => some KeyCode.F21
  | "F22" => some KeyCode.F22
  | "F23" => some KeyCode.F23
  | "F24" => some KeyCode.F24
  | "Home" => some KeyCode.Home
  | "ArrowUp" => some KeyCode.UpArrow
  | "PageUp" => some KeyCode.PageUp
  | "ArrowLeft" => some KeyCode.LeftArrow
  | "ArrowRight" => some KeyCode.RightArrow
  | "End" => some KeyCode.End
  | "ArrowDown" => some KeyCode.DownArrow
  | "PageDown" => some KeyCode.PageDown
  | "Delete" => some KeyCode.Delete
  | "ControlLeft" => some KeyCode.Control
  | "ControlRight" => some KeyCode.Control
  | "AltLeft" => some KeyCode.Alt
  | "AltRight" => some KeyCode.Alt
  | "MetaLeft" => some KeyCode.Meta
  | "MetaRight" => some KeyCode.Meta
  | "ShiftLeft" => some KeyCode.Shift
  | "ShiftRight" => some KeyCode.Shift
  | _ => none

/-- The modifier-flag vector built by `send_keyboard_event`
(pushed in the order Control, Alt, Meta, Shift). -/
def flagsOf (e : KeyboardEvent) : List Flag :=
  (if e.ctrl then [Flag.Control] else []) ++
  (if e.alt then [Flag.Alt] else []) ++
  (if e.meta then [Flag.Meta] else []) ++
  (if e.shift then [Flag.Shift] else [])

/-- The key-toggle calls issued for a DOWN/UP keyboard event with toggle
state `state`: one `Code` toggle when the table maps `code`, otherwise one
`Character` toggle per character of `key`. -/
def keyCalls (e : KeyboardEvent) (state : Bool) : List KeyToggle :=
  match map_key e.code with
  | some k => [{ key := Key.Code k, down := state, flags := flagsOf e }]
  | none =>
      e.key.toList.map fun c =>
        { key := Key.Character c, down := state, flags := flagsOf e }

/-- `AutoPilotDevice::send_keyboard_event`: REPEAT is a no-op; otherwise the
toggle calls of `keyCalls`.  The function body reads no device field, so it
is embedded generically over the device state. -/
def send_keyboard_event {α : Type} (dev : α) (e : KeyboardEvent) :
    α × List KeyToggle :=
  match e.event_type with
  | .UP => (dev, keyCalls e false)
  | .DOWN => (dev, keyCalls e true)
  | .REPEAT => (dev, [])

/-- `AutoPilotDevice::set_capturable` (macOS variant). -/
def MacDevice.set_capturable (dev : MacDevice) (c : Capturable) : MacDevice :=
  { dev with capturable := c }

/-- `AutoPilotDevice::set_capturable` (baseline variant). -/
def BaseDevice.set_capturable (dev : BaseDevice) (c : Capturable) :
    BaseDevice :=
  { dev with capturable := c }

/-- Deliver a list of pointer events in order to the macOS variant,
propagating the panic and concatenating the emitted primitives. -/
def runMac (screen : Except String (ℚ × ℚ × ℚ × ℚ)) (dev : MacDevice) :
    List PointerEvent → Option (MacDevice × List MacPrimitive)
  | [] => some (dev, [])
  | e :: es =>
    match send_pointer_event_macos screen dev e with
    | none => none
    | some (d1, t1) =>
      match runMac screen d1 es with
      | none => none
      | some (d2, t2) => some (d2, t1 ++ t2)

/-- Deliver a list of pointer events in order to the baseline variant. -/
def runBase (screen : Size) (dev : BaseDevice) :
    List PointerEvent → Option (BaseDevice × List BasePrimitive)
  | [] => some (dev, [])
  | e :: es =>
    match send_pointer_event_base screen dev e with
    | none => none
    | some (d1, t1) =>
      match runBase screen d1 es with
      | none => none
      | some (d2, t2) => some (d2, t1 ++ t2)

/-- Is a macOS primitive a proximity event? -/
def MacPrimitive.isProximity : MacPrimitive → Bool
  | .tabletProximity _ => true
  | _ => false

/-- Is a macOS primitive a mouse event of type `t`? -/
def MacPrimitive.isMouseOf (t : CGEventType) : MacPrimitive → Bool
  | .mouseEvent s _ _ _ => s = t
  | _ => false

/-- Is a baseline primitive a button toggle? -/
def BasePrimitive.isToggle : BasePrimitive → Bool
  | .toggle _ => true
  | _ => false

/-- A capturable whose activation succeeds but whose geometry lookup fails
(e.g. the captured window no longer exists). -/
def capGone : Capturable :=
  { before_input := .ok (), geometry := .error "window closed" }

/-- A capturable for which both collaborator calls succeed, with the capture
target covering the whole screen. -/
def capOk : Capturable :=
  { before_input := .ok (), geometry := .ok ⟨0, 0, 1, 1⟩ }

/-- A capturable whose activation (`before_input`) fails. -/
def capBad : Capturable :=
  { before_input := .error "no window", geometry := .ok ⟨0, 0, 1, 1⟩ }

/-! ## Step lemmas for `send_pointer_event` (macOS variant) -/

/-- Non-primary events are discarded unchanged (macOS). -/
theorem macos_step_nonprimary (screen : Except String (ℚ × ℚ × ℚ × ℚ))
    (dev : MacDevice) (e : PointerEvent) (hp : e.is_primary = false) :
    send_pointer_event_macos screen dev e = some (dev, []) := by
  simp [send_pointer_event_macos, hp]

/-- A failing `before_input` drops the event unchanged (macOS). -/
theorem macos_step_before_input_error (screen : Except String (ℚ × ℚ × ℚ × ℚ))
    (dev : MacDevice) (e : PointerEvent) (msg : String)
    (hp : e.is_primary = true)
    (hb : dev.capturable.before_input = .error msg) :
    send_pointer_event_macos screen dev e = some (dev, []) := by
  simp [send_pointer_event_macos, hp, hb]

/-- A failing geometry lookup panics — `geometry().unwrap()` (macOS). -/
theorem macos_step_geometry_error (screen : Except String (ℚ × ℚ × ℚ × ℚ))
    (dev : MacDevice) (e : PointerEvent) (msg : String)
    (hp : e.is_primary = true)
    (hb : dev.capturable.before_input = .ok ())
    (hg : dev.capturable.geometry = .error msg) :
    send_pointer_event_macos screen dev e = none := by
  simp [send_pointer_event_macos, hp, hb, hg]

/-- A DOWN while the button is up: enter proximity if needed, set the flag,
emit the button-down primitive (macOS). -/
theorem macos_step_down_fresh (x0 y0 W H : ℚ) (dev : MacDevice) (g : Geometry)
    (e : PointerEvent)
    (hb : dev.capturable.before_input = .ok ())
    (hg : dev.capturable.geometry = .ok g)
    (hp : e.is_primary = true) (het : e.event_type = .DOWN)
    (hd : dev.left_button_down = false) :
    send_pointer_event_macos (.ok (x0, y0, W, H)) dev e =
      some ({ dev with left_button_down := true, in_proximity := true },
        (if dev.in_proximity then [] else [MacPrimitive.tabletProximity true]) ++
        [MacPrimitive.mouseEvent .LeftMouseDown (map_coords g W H e.x e.y).1
          (map_coords g W H e.x e.y).2 e.pressure]) := by
  rcases dev with ⟨c, lbd, prox⟩
  rcases e with ⟨et, ex, ey, ep, eip⟩
  simp only at hb hg hp het hd
  subst hp het hd
  cases prox <;>
    simp [send_pointer_event_macos, hb, hg]

/-- A DOWN while the button is already down is a no-op (macOS). -/
theorem macos_step_down_held (x0 y0 W H : ℚ) (dev : MacDevice) (g : Geometry)
    (e : PointerEvent)
    (hb : dev.capturable.before_input = .ok ())
    (hg : dev.capturable.geometry = .ok g)
    (hp : e.is_primary = true) (het : e.event_type = .DOWN)
    (hd : dev.left_button_down = true) :
    send_pointer_event_macos (.ok (x0, y0, W, H)) dev e = some (dev, []) := by
  rcases dev with ⟨c, lbd, prox⟩
  rcases e with ⟨et, ex, ey, ep, eip⟩
  simp only at hb hg hp het hd
  subst hp het hd
  simp [send_pointer_event_macos, hb, hg]

/-- An UP/CANCEL/LEAVE/OUT while the button is down: clear both flags, emit
the button-up primitive with pressure 0, then the proximity-leave if the
device was in proximity (macOS). -/
theorem macos_step_upkind_held (x0 y0 W H : ℚ) (dev : MacDevice)
    (g : Geometry) (e : PointerEvent)
    (hb : dev.capturable.before_input = .ok ())
    (hg : dev.capturable.geometry = .ok g)
    (hp : e.is_primary = true)
    (het : e.event_type = .UP ∨ e.event_type = .CANCEL ∨
      e.event_type = .LEAVE ∨ e.event_type = .OUT)
    (hd : dev.left_button_down = true) :
    send_pointer_event_macos (.ok (x0, y0, W, H)) dev e =
      some ({ dev with left_button_down := false, in_proximity := false },
        MacPrimitive.mouseEvent .LeftMouseUp (map_coords g W H e.x e.y).1
          (map_coords g W H e.x e.y).2 0 ::
        (if dev.in_proximity then [MacPrimitive.tabletProximity false] else [])) := by
  rcases dev with ⟨c, lbd, prox⟩
  rcases e with ⟨et, ex, ey, ep, eip⟩
  simp only at hb hg hp het hd
  subst hp hd
  rcases het with h | h | h | h <;> subst h <;> cases prox <;>
    simp [send_pointer_event_macos, hb, hg]

/-- An UP/CANCEL/LEAVE/OUT while the button is up is a no-op (macOS). -/
theorem macos_step_upkind_idle (x0 y0 W H : ℚ) (dev : MacDevice)
    (g : Geometry) (e : PointerEvent)
    (hb : dev.capturable.before_input = .ok ())
    (hg : dev.capturable.geometry = .ok g)
    (hp : e.is_primary = true)
    (het : e.event_type = .UP ∨ e.event_type = .CANCEL ∨
      e.event_type = .LEAVE ∨ e.event_type = .OUT)
    (hd : dev.left_button_down = false) :
    send_pointer_event_macos (.ok (x0, y0, W, H)) dev e = some (dev, []) := by
  rcases dev with ⟨c, lbd, prox⟩
  rcases e with ⟨et, ex, ey, ep, eip⟩
  simp only at hb hg hp het hd
  subst hp hd
  rcases het with h | h | h | h <;> subst h <;>
    simp [send_pointer_event_macos, hb, hg]

/-- A MOVE/OVER/ENTER: a drag primitive with the event's pressure when the
button is down, a plain move with pressure 0 otherwise; state unchanged
(macOS). -/
theorem macos_step_movekind (x0 y0 W H : ℚ) (dev : MacDevice) (g : Geometry)
    (e : PointerEvent)
    (hb : dev.capturable.before_input = .ok ())
    (hg : dev.capturable.geometry = .ok g)
    (hp : e.is_primary = true)
    (het : e.event_type = .MOVE ∨ e.event_type = .OVER ∨
      e.event_type = .ENTER) :
    send_pointer_event_macos (.ok (x0, y0, W, H)) dev e =
      some (dev,
        [if dev.left_button_down then
          MacPrimitive.mouseEvent .LeftMouseDragged (map_coords g W H e.x e.y).1
            (map_coords g W H e.x e.y).2 e.pressure
         else
          MacPrimitive.mouseEvent .MouseMoved (map_coords g W H e.x e.y).1
            (map_coords g W H e.x e.y).2 0]) := by
  rcases dev with ⟨c, lbd, prox⟩
  rcases e with ⟨et, ex, ey, ep, eip⟩
  simp only at hb hg hp het
  subst hp
  rcases het with h | h | h <;> subst h <;> cases lbd <;>
    simp [send_pointer_event_macos, hb, hg]

/-! ## Step lemmas for `send_pointer_event` (baseline variant) -/

/-- Non-primary events are discarded unchanged (baseline). -/
theorem base_step_nonprimary (sz : Size) (dev : BaseDevice) (e : PointerEvent)
    (hp : e.is_primary = false) :
    send_pointer_event_base sz dev e = some (dev, []) := by
  simp [send_pointer_event_base, hp]

/-- A failing `before_input` drops the event unchanged (baseline). -/
theorem base_step_before_input_error (sz : Size) (dev : BaseDevice)
    (e : PointerEvent) (msg : String)
    (hp : e.is_primary = true)
    (hb : dev.capturable.before_input = .error msg) :
    send_pointer_event_base sz dev e = some (dev, []) := by
  simp [send_pointer_event_base, hp, hb]

/-- A failing geometry lookup panics — `geometry().unwrap()` (baseline). -/
theorem base_step_geometry_error (sz : Size) (dev : BaseDevice)
    (e : PointerEvent) (msg : String)
    (hp : e.is_primary = true)
    (hb : dev.capturable.before_input = .ok ())
    (hg : dev.capturable.geometry = .error msg) :
    send_pointer_event_base sz dev e = none := by
  simp [send_pointer_event_base, hp, hb, hg]

/-- A DOWN while the button is up: move, set the flag, toggle the button
down (baseline). -/
theorem base_step_down_fresh (sz : Size) (dev : BaseDevice) (g : Geometry)
    (e : PointerEvent)
    (hb : dev.capturable.before_input = .ok ())
    (hg : dev.capturable.geometry = .ok g)
    (hp : e.is_primary = true) (het : e.event_type = .DOWN)
    (hd : dev.left_button_down = false) :
    send_pointer_event_base sz dev e =
      some ({ dev with left_button_down := true },
        [BasePrimitive.moveTo (map_coords g sz.width sz.height e.x e.y).1
          (map_coords g sz.width sz.height e.x e.y).2,
         BasePrimitive.toggle true]) := by
  rcases dev with ⟨c, lbd⟩
  rcases e with ⟨et, ex, ey, ep, eip⟩
  simp only at hb hg hp het hd
  subst hp het hd
  simp [send_pointer_event_base, hb, hg]

/-- A DOWN while the button is already down emits only the unconditional
move (baseline). -/
theorem base_step_down_held (sz : Size) (dev : BaseDevice) (g : Geometry)
    (e : PointerEvent)
    (hb : dev.capturable.before_input = .ok ())
    (hg : dev.capturable.geometry = .ok g)
    (hp : e.is_primary = true) (het : e.event_type = .DOWN)
    (hd : dev.left_button_down = true) :
    send_pointer_event_base sz dev e =
      some (dev,
        [BasePrimitive.moveTo (map_coords g sz.width sz.height e.x e.y).1
          (map_coords g sz.width sz.height e.x e.y).2]) := by
  rcases dev with ⟨c, lbd⟩
  rcases e with ⟨et, ex, ey, ep, eip⟩
  simp only at hb hg hp het hd
  subst hp het hd
  simp [send_pointer_event_base, hb, hg]

/-- An UP/CANCEL/LEAVE/OUT while the button is down: move, clear the flag,
toggle the button up (baseline). -/
theorem base_step_upkind_held (sz : Size) (dev : BaseDevice) (g : Geometry)
    (e : PointerEvent)
    (hb : dev.capturable.before_input = .ok ())
    (hg : dev.capturable.geometry = .ok g)
    (hp : e.is_primary = true)
    (het : e.event_type = .UP ∨ e.event_type = .CANCEL ∨
      e.event_type = .LEAVE ∨ e.event_type = .OUT)
    (hd : dev.left_button_down = true) :
    send_pointer_event_base sz dev e =
      some ({ dev with left_button_down := false },
        [BasePrimitive.moveTo (map_coords g sz.width sz.height e.x e.y).1
          (map_coords g sz.width sz.height e.x e.y).2,
         BasePrimitive.toggle false]) := by
  rcases dev with ⟨c, lbd⟩
  rcases e with ⟨et, ex, ey, ep, eip⟩
  simp only at hb hg hp het hd
  subst hp hd
  rcases het with h | h | h | h <;> subst h <;>
    simp [send_pointer_event_base, hb, hg]

/-- An UP/CANCEL/LEAVE/OUT while the button is up emits only the
unconditional move (baseline). -/
theorem base_step_upkind_idle (sz : Size) (dev : BaseDevice) (g : Geometry)
    (e : PointerEvent)
    (hb : dev.capturable.before_input = .ok ())
    (hg : dev.capturable.geometry = .ok g)
    (hp : e.is_primary = true)
    (het : e.event_type = .UP ∨ e.event_type = .CANCEL ∨
      e.event_type = .LEAVE ∨ e.event_type = .OUT)
    (hd : dev.left_button_down = false) :
    send_pointer_event_base sz dev e =
      some (dev,
        [BasePrimitive.moveTo (map_coords g sz.width sz.height e.x e.y).1
          (map_coords g sz.width sz.height e.x e.y).2]) := by
  rcases dev with ⟨c, lbd⟩
  rcases e with ⟨et, ex, ey, ep, eip⟩
  simp only at hb hg hp het hd
  subst hp hd
  rcases het with h | h | h | h <;> subst h <;>
    simp [send_pointer_event_base, hb, hg]

/-- A MOVE/OVER/ENTER emits only the unconditional move; state unchanged
(baseline). -/
theorem base_step_movekind (sz : Size) (dev : BaseDevice) (g : Geometry)
    (e : PointerEvent)
    (hb : dev.capturable.before_input = .ok ())
    (hg : dev.capturable.geometry = .ok g)
    (hp : e.is_primary = true)
    (het : e.event_type = .MOVE ∨ e.event_type = .OVER ∨
      e.event_type = .ENTER) :
    send_pointer_event_base sz dev e =
      some (dev,
        [BasePrimitive.moveTo (map_coords g sz.width sz.height e.x e.y).1
          (map_coords g sz.width sz.height e.x e.y).2]) := by
  rcases dev with ⟨c, lbd⟩
  rcases e with ⟨et, ex, ey, ep, eip⟩
  simp only at hb hg hp het
  subst hp
  rcases het with h | h | h <;> subst h <;> cases lbd <;>
    simp [send_pointer_event_base, hb, hg]

/-! ## Run lemmas -/

/-- While the button is held, further primary DOWNs leave the macOS device
unchanged and emit nothing. -/
theorem runMac_downs_held (x0 y0 W H : ℚ) (g : Geometry) (dev : MacDevice)
    (hb : dev.capturable.before_input = .ok ())
    (hg : dev.capturable.geometry = .ok g)
    (hd : dev.left_button_down = true)
    (es : List PointerEvent)
    (hes : ∀ e ∈ es, e.event_type = .DOWN ∧ e.is_primary = true) :
    runMac (.ok (x0, y0, W, H)) dev es = some (dev, []) := by
  induction es with
  | nil => rfl
  | cons e es ih =>
    obtain ⟨het, hp⟩ := hes e (List.mem_cons_self e es)
    have hstep := macos_step_down_held x0 y0 W H dev g e hb hg hp het hd
    have hrest := ih fun e' he' => hes e' (List.mem_cons_of_mem e he')
    simp [runMac, hstep, hrest]

/-- While the button is held, further primary DOWNs leave the baseline
device unchanged and emit only the unconditional moves. -/
theorem runBase_downs_held (sz : Size) (g : Geometry) (dev : BaseDevice)
    (hb : dev.capturable.before_input = .ok ())
    (hg : dev.capturable.geometry = .ok g)
    (hd : dev.left_button_down = true)
    (es : List PointerEvent)
    (hes : ∀ e ∈ es, e.event_type = .DOWN ∧ e.is_primary = true) :
    runBase sz dev es = some (dev, es.map fun e =>
      BasePrimitive.moveTo (map_coords g sz.width sz.height e.x e.y).1
        (map_coords g sz.width sz.height e.x e.y).2) := by
  induction es with
  | nil => rfl
  | cons e es ih =>
    obtain ⟨het, hp⟩ := hes e (List.mem_cons_self e es)
    have hstep := base_step_down_held sz dev g e hb hg hp het hd
    have hrest := ih fun e' he' => hes e' (List.mem_cons_of_mem e he')
    simp [runMac, hstep, hrest, runBase]

/-- Between a DOWN and its UP, accepted primary DOWN/MOVE/OVER/ENTER events
leave the macOS device unchanged and emit no proximity, button-down or
button-up primitive. -/
theorem runMac_cycle_mid (x0 y0 W H : ℚ) (g : Geometry) (dev : MacDevice)
    (hb : dev.capturable.before_input = .ok ())
    (hg : dev.capturable.geometry = .ok g)
    (hd : dev.left_button_down = true)
    (es : List PointerEvent)
    (hes : ∀ e ∈ es, e.is_primary = true ∧
      (e.event_type = .DOWN ∨ e.event_type = .MOVE ∨
       e.event_type = .OVER ∨ e.event_type = .ENTER)) :
    ∃ t, runMac (.ok (x0, y0, W, H)) dev es = some (dev, t) ∧
      t.countP MacPrimitive.isProximity = 0 ∧
      t.countP (MacPrimitive.isMouseOf .LeftMouseDown) = 0 ∧
      t.countP (MacPrimitive.isMouseOf .LeftMouseUp) = 0 := by
  induction es with
  | nil => exact ⟨[], rfl, rfl, rfl, rfl⟩
  | cons e es ih =>
    obtain ⟨hp, hkind⟩ := hes e (List.mem_cons_self e es)
    obtain ⟨t, ht, hc1, hc2, hc3⟩ :=
      ih fun e' he' => hes e' (List.mem_cons_of_mem e he')
    rcases hkind with h | h | h | h
    · have hstep := macos_step_down_held x0 y0 W H dev g e hb hg hp h hd
      exact ⟨t, by simp [runMac, hstep, ht], hc1, hc2, hc3⟩
    all_goals
    · have hk : e.event_type = .MOVE ∨ e.event_type = .OVER ∨
          e.event_type = .ENTER := by tauto
      have hstep := macos_step_movekind x0 y0 W H dev g e hb hg hp hk
      rw [hd, if_pos rfl] at hstep
      refine ⟨MacPrimitive.mouseEvent .LeftMouseDragged
          (map_coords g W H e.x e.y).1 (map_coords g W H e.x e.y).2
          e.pressure :: t, ?_, ?_, ?_, ?_⟩
      · simp [runMac, hstep, ht]
      · simp [List.countP_cons, MacPrimitive.isProximity, hc1]
      · simp [List.countP_cons, MacPrimitive.isMouseOf, hc2]
      · simp [List.countP_cons, MacPrimitive.isMouseOf, hc3]

/-- Running an appended event list composes the runs and concatenates the
traces (macOS). -/
theorem runMac_append (screen : Except String (ℚ × ℚ × ℚ × ℚ))
    (dev : MacDevice) (l1 l2 : List PointerEvent) :
    runMac screen dev (l1 ++ l2) =
      (runMac screen dev l1).bind fun p =>
        (runMac screen p.1 l2).map fun q => (q.1, p.2 ++ q.2) := by
  induction l1 generalizing dev with
  | nil =>
    cases h : runMac screen dev l2 <;> simp [runMac, h]
  | cons e l1 ih =>
    cases hs : send_pointer_event_macos screen dev e with
    | none => simp [runMac, hs]
    | some p =>
      rcases p with ⟨d1, t1⟩
      rw [List.cons_append]
      simp only [runMac, hs, ih]
      cases h1 : runMac screen d1 l1 with
      | none => simp
      | some q =>
        rcases q with ⟨d2, t2⟩
        cases h2 : runMac screen d2 l2 <;> simp [h2]

/-! ## Claims -/

/-- C1: the claim states that a failing geometry lookup makes
`send_pointer_event` drop the event without panicking.  The code instead
calls `geometry().unwrap()`: evaluated at a primary MOVE event whose
capturable activates fine but whose geometry lookup fails, both variants of
`send_pointer_event` panic (embedded as `none`) instead of returning with
the device unchanged. -/
theorem c1_geometry_error_panics :
    send_pointer_event_macos (.ok (0, 0, 1000, 1000)) (MacDevice.new capGone)
      { event_type := .MOVE, x := 1/2, y := 1/2, pressure := 0,
        is_primary := true } = none ∧
    send_pointer_event_base { width := 1000, height := 1000 }
      (BaseDevice.new capGone)
      { event_type := .MOVE, x := 1/2, y := 1/2, pressure := 0,
        is_primary := true } = none :=
  ⟨rfl, rfl⟩

/-- C3: for every primary pointer event, if the capture target's
`before_input` activation fails, `send_pointer_event` (both variants) emits
no platform primitive and returns the device completely unchanged
(`left_button_down`, `in_proximity` and the capturable untouched). -/
theorem c3_before_input_failure_drops
    (screen : Except String (ℚ × ℚ × ℚ × ℚ)) (sz : Size)
    (dm : MacDevice) (db : BaseDevice) (e : PointerEvent)
    (msgm msgb : String)
    (hp : e.is_primary = true)
    (hm : dm.capturable.before_input = .error msgm)
    (hb : db.capturable.before_input = .error msgb) :
    send_pointer_event_macos screen dm e = some (dm, []) ∧
    send_pointer_event_base sz db e = some (db, []) :=
  ⟨macos_step_before_input_error screen dm e msgm hp hm,
   base_step_before_input_error sz db e msgb hp hb⟩

/-- Witness for C3 at a concrete primary DOWN event and a capturable whose
activation fails. -/
theorem c3_witness :
    ({ event_type := .DOWN, x := 1/2, y := 1/2, pressure := 1,
       is_primary := true } : PointerEvent).is_primary = true ∧
    (MacDevice.new capBad).capturable.before_input = .error "no window" ∧
    (BaseDevice.new capBad).capturable.before_input = .error "no window" ∧
    (send_pointer_event_macos (.ok (0, 0, 100, 100)) (MacDevice.new capBad)
      { event_type := .DOWN, x := 1/2, y := 1/2, pressure := 1,
        is_primary := true } = some (MacDevice.new capBad, []) ∧
     send_pointer_event_base { width := 100, height := 100 }
      (BaseDevice.new capBad)
      { event_type := .DOWN, x := 1/2, y := 1/2, pressure := 1,
        is_primary := true } = some (BaseDevice.new capBad, [])) :=
  ⟨rfl, rfl, rfl,
   c3_before_input_failure_drops (.ok (0, 0, 100, 100))
     { width := 100, height := 100 } (MacDevice.new capBad)
     (BaseDevice.new capBad) _ "no window" "no window" rfl rfl rfl⟩

/-- C9: every pointer event with `is_primary = false` is silently discarded
by both variants: no platform primitive, no state mutation (the whole
device, capturable included, is returned unchanged), for every screen
provider and every `event_type` — in particular the result does not consult
the capturable at all. -/
theorem c9_nonprimary_discarded
    (screen : Except String (ℚ × ℚ × ℚ × ℚ)) (sz : Size)
    (dm : MacDevice) (db : BaseDevice) (e : PointerEvent)
    (hp : e.is_primary = false) :
    send_pointer_event_macos screen dm e = some (dm, []) ∧
    send_pointer_event_base sz db e = some (db, []) :=
  ⟨macos_step_nonprimary screen dm e hp,
   base_step_nonprimary sz db e hp⟩

/-- Witness for C9 at a concrete non-primary DOWN event, on a device whose
capturable would fail both calls — showing neither collaborator is
consulted. -/
theorem c9_witness :
    ({ event_type := .DOWN, x := 0, y := 0, pressure := 1,
       is_primary := false } : PointerEvent).is_primary = false ∧
    (send_pointer_event_macos (.error "no screen")
      (MacDevice.new capBad)
      { event_type := .DOWN, x := 0, y := 0, pressure := 1,
        is_primary := false } = some (MacDevice.new capBad, []) ∧
     send_pointer_event_base { width := 100, height := 100 }
      (BaseDevice.new capGone)
      { event_type := .DOWN, x := 0, y := 0, pressure := 1,
        is_primary := false } = some (BaseDevice.new capGone, [])) :=
  ⟨rfl,
   c9_nonprimary_discarded (.error "no screen")
     { width := 100, height := 100 } (MacDevice.new capBad)
     (BaseDevice.new capGone) _ rfl⟩

/-- C2, counterexample: on the baseline variant a second UP with no
intervening DOWN does emit a platform primitive — the unconditional
`mouse::move_to`.  Concretely, after a DOWN and an UP (which restore the
idle state), the next UP emits `[moveTo 50 50]`, not `[]` as the claim
states. -/
theorem c2_counterexample :
    runBase { width := 100, height := 100 } (BaseDevice.new capOk)
      [{ event_type := .DOWN, x := 1/2, y := 1/2, pressure := 1,
         is_primary := true },
       { event_type := .UP, x := 1/2, y := 1/2, pressure := 0,
         is_primary := true }] =
      some (BaseDevice.new capOk,
        [BasePrimitive.moveTo 50 50, BasePrimitive.toggle true,
         BasePrimitive.moveTo 50 50, BasePrimitive.toggle false]) ∧
    send_pointer_event_base { width := 100, height := 100 }
      (BaseDevice.new capOk)
      { event_type := .UP, x := 1/2, y := 1/2, pressure := 0,
        is_primary := true } =
      some (BaseDevice.new capOk, [BasePrimitive.moveTo 50 50]) ∧
    ([BasePrimitive.moveTo 50 50] : List BasePrimitive) ≠ [] := by
  refine ⟨?_, ?_, by simp⟩ <;>
    norm_num [runBase, send_pointer_event_base, BaseDevice.new, capOk,
      map_coords]

/-- C2, amended: for a primary stream starting with the button up, a DOWN
followed by an UP emits exactly one button-down primitive and then exactly
one button-up primitive, in that order (on the advanced variant wrapped in
the proximity pair, on the baseline variant interleaved with the
unconditional moves); a second UP with no intervening DOWN emits no
platform primitive at all on the advanced variant, and on the baseline
variant emits only the unconditional cursor move — never a button
primitive. -/
theorem c2_amended (c : Capturable) (g : Geometry)
    (x0 y0 W H Wb Hb x1 y1 p1 x2 y2 p2 x3 y3 p3 : ℚ)
    (hb : c.before_input = .ok ())
    (hg : c.geometry = .ok g) :
    runMac (.ok (x0, y0, W, H)) (MacDevice.new c)
      [{ event_type := .DOWN, x := x1, y := y1, pressure := p1,
         is_primary := true },
       { event_type := .UP, x := x2, y := y2, pressure := p2,
         is_primary := true },
       { event_type := .UP, x := x3, y := y3, pressure := p3,
         is_primary := true }] =
      some (MacDevice.new c,
        [MacPrimitive.tabletProximity true,
         MacPrimitive.mouseEvent .LeftMouseDown (map_coords g W H x1 y1).1
           (map_coords g W H x1 y1).2 p1,
         MacPrimitive.mouseEvent .LeftMouseUp (map_coords g W H x2 y2).1
           (map_coords g W H x2 y2).2 0,
         MacPrimitive.tabletProximity false]) ∧
    runBase { width := Wb, height := Hb } (BaseDevice.new c)
      [{ event_type := .DOWN, x := x1, y := y1, pressure := p1,
         is_primary := true },
       { event_type := .UP, x := x2, y := y2, pressure := p2,
         is_primary := true },
       { event_type := .UP, x := x3, y := y3, pressure := p3,
         is_primary := true }] =
      some (BaseDevice.new c,
        [BasePrimitive.moveTo (map_coords g Wb Hb x1 y1).1
           (map_coords g Wb Hb x1 y1).2,
         BasePrimitive.toggle true,
         BasePrimitive.moveTo (map_coords g Wb Hb x2 y2).1
           (map_coords g Wb Hb x2 y2).2,
         BasePrimitive.toggle false,
         BasePrimitive.moveTo (map_coords g Wb Hb x3 y3).1
           (map_coords g Wb Hb x3 y3).2]) := by
  constructor
  · simp [runMac, send_pointer_event_macos, MacDevice.new, hb, hg]
  · simp [runBase, send_pointer_event_base, BaseDevice.new, hb, hg]

/-- Witness for C2 at a concrete capturable, geometry, screen and event
coordinates. -/
theorem c2_witness :
    capOk.before_input = .ok () ∧
    capOk.geometry = .ok ⟨0, 0, 1, 1⟩ ∧
    (runMac (.ok (0, 0, 100, 100)) (MacDevice.new capOk)
      [{ event_type := .DOWN, x := 1/2, y := 1/2, pressure := 1,
         is_primary := true },
       { event_type := .UP, x := 1/4, y := 1/4, pressure := 0,
         is_primary := true },
       { event_type := .UP, x := 1/4, y := 1/4, pressure := 0,
         is_primary := true }] =
      some (MacDevice.new capOk,
        [MacPrimitive.tabletProximity true,
         MacPrimitive.mouseEvent .LeftMouseDown
           (map_coords ⟨0, 0, 1, 1⟩ 100 100 (1/2) (1/2)).1
           (map_coords ⟨0, 0, 1, 1⟩ 100 100 (1/2) (1/2)).2 1,
         MacPrimitive.mouseEvent .LeftMouseUp
           (map_coords ⟨0, 0, 1, 1⟩ 100 100 (1/4) (1/4)).1
           (map_coords ⟨0, 0, 1, 1⟩ 100 100 (1/4) (1/4)).2 0,
         MacPrimitive.tabletProximity false]) ∧
     runBase { width := 100, height := 100 } (BaseDevice.new capOk)
      [{ event_type := .DOWN, x := 1/2, y := 1/2, pressure := 1,
         is_primary := true },
       { event_type := .UP, x := 1/4, y := 1/4, pressure := 0,
         is_primary := true },
       { event_type := .UP, x := 1/4, y := 1/4, pressure := 0,
         is_primary := true }] =
      some (BaseDevice.new capOk,
        [BasePrimitive.moveTo (map_coords ⟨0, 0, 1, 1⟩ 100 100 (1/2) (1/2)).1
           (map_coords ⟨0, 0, 1, 1⟩ 100 100 (1/2) (1/2)).2,
         BasePrimitive.toggle true,
         BasePrimitive.moveTo (map_coords ⟨0, 0, 1, 1⟩ 100 100 (1/4) (1/4)).1
           (map_coords ⟨0, 0, 1, 1⟩ 100 100 (1/4) (1/4)).2,
         BasePrimitive.toggle false,
         BasePrimitive.moveTo (map_coords ⟨0, 0, 1, 1⟩ 100 100 (1/4) (1/4)).1
           (map_coords ⟨0, 0, 1, 1⟩ 100 100 (1/4) (1/4)).2])) :=
  ⟨rfl, rfl,
   c2_amended capOk ⟨0, 0, 1, 1⟩ 0 0 100 100 100 100 (1/2) (1/2) 1
     (1/4) (1/4) 0 (1/4) (1/4) 0 rfl rfl⟩

/-- C4: for any sequence of accepted primary DOWN events with no
intervening UP/CANCEL/LEAVE/OUT, exactly one button-down primitive is
emitted: the first DOWN sets `left_button_down` and emits it, and every
subsequent DOWN leaves the device unchanged and emits no button-down
primitive (nothing at all on the advanced variant, only the unconditional
move on the baseline variant). -/
theorem c4_down_idempotent (x0 y0 W H : ℚ) (sz : Size) (gm gb : Geometry)
    (dm : MacDevice) (db : BaseDevice) (e0 : PointerEvent)
    (rest : List PointerEvent)
    (hbm : dm.capturable.before_input = .ok ())
    (hgm : dm.capturable.geometry = .ok gm)
    (hdm : dm.left_button_down = false)
    (hbb : db.capturable.before_input = .ok ())
    (hgb : db.capturable.geometry = .ok gb)
    (hdb : db.left_button_down = false)
    (he0 : e0.event_type = .DOWN) (hp0 : e0.is_primary = true)
    (hrest : ∀ e ∈ rest, e.event_type = .DOWN ∧ e.is_primary = true) :
    runMac (.ok (x0, y0, W, H)) dm (e0 :: rest) =
      some ({ dm with left_button_down := true, in_proximity := true },
        (if dm.in_proximity then [] else [MacPrimitive.tabletProximity true]) ++
        [MacPrimitive.mouseEvent .LeftMouseDown (map_coords gm W H e0.x e0.y).1
          (map_coords gm W H e0.x e0.y).2 e0.pressure]) ∧
    ((if dm.in_proximity then [] else [MacPrimitive.tabletProximity true]) ++
        [MacPrimitive.mouseEvent .LeftMouseDown (map_coords gm W H e0.x e0.y).1
          (map_coords gm W H e0.x e0.y).2 e0.pressure]).countP
      (MacPrimitive.isMouseOf .LeftMouseDown) = 1 ∧
    runBase sz db (e0 :: rest) =
      some ({ db with left_button_down := true },
        [BasePrimitive.moveTo (map_coords gb sz.width sz.height e0.x e0.y).1
           (map_coords gb sz.width sz.height e0.x e0.y).2,
         BasePrimitive.toggle true] ++
        rest.map fun e =>
          BasePrimitive.moveTo (map_coords gb sz.width sz.height e.x e.y).1
            (map_coords gb sz.width sz.height e.x e.y).2) ∧
    ([BasePrimitive.moveTo (map_coords gb sz.width sz.height e0.x e0.y).1
        (map_coords gb sz.width sz.height e0.x e0.y).2,
      BasePrimitive.toggle true] ++
      rest.map fun e =>
        BasePrimitive.moveTo (map_coords gb sz.width sz.height e.x e.y).1
          (map_coords gb sz.width sz.height e.x e.y).2).countP
      BasePrimitive.isToggle = 1 := by
  refine ⟨?_, ?_, ?_, ?_⟩
  · have s1 := macos_step_down_fresh x0 y0 W H dm gm e0 hbm hgm hp0 he0 hdm
    have s2 := runMac_downs_held x0 y0 W H gm
      { dm with left_button_down := true, in_proximity := true }
      hbm hgm rfl rest hrest
    simp [runMac, s1, s2]
  · cases hpr : dm.in_proximity <;>
      simp [List.countP_cons, MacPrimitive.isMouseOf, MacPrimitive.isProximity]
  · have s1 := base_step_down_fresh sz db gb e0 hbb hgb hp0 he0 hdb
    have s2 := runBase_downs_held sz gb { db with left_button_down := true }
      hbb hgb rfl rest hrest
    simp [runBase, s1, s2]
  · have : ∀ e ∈ rest, (BasePrimitive.isToggle
        (BasePrimitive.moveTo (map_coords gb sz.width sz.height e.x e.y).1
          (map_coords gb sz.width sz.height e.x e.y).2)) = false :=
      fun _ _ => rfl
    simp [List.countP_cons, List.countP_eq_zero, BasePrimitive.isToggle,
      List.countP_map, Function.comp]

/-- Witness for C4: a concrete triple-DOWN stream on both variants. -/
theorem c4_witness :
    (MacDevice.new capOk).capturable.before_input = .ok () ∧
    (MacDevice.new capOk).capturable.geometry = .ok ⟨0, 0, 1, 1⟩ ∧
    (MacDevice.new capOk).left_button_down = false ∧
    (BaseDevice.new capOk).capturable.before_input = .ok () ∧
    (BaseDevice.new capOk).capturable.geometry = .ok ⟨0, 0, 1, 1⟩ ∧
    (BaseDevice.new capOk).left_button_down = false ∧
    ({ event_type := .DOWN, x := 1/2, y := 1/2, pressure := 1,
       is_primary := true } : PointerEvent).event_type = .DOWN ∧
    ({ event_type := .DOWN, x := 1/2, y := 1/2, pressure := 1,
       is_primary := true } : PointerEvent).is_primary = true ∧
    (∀ e ∈ [({ event_type := .DOWN, x := 1/4, y := 1/4, pressure := 1,
               is_primary := true } : PointerEvent),
            { event_type := .DOWN, x := 3/4, y := 3/4, pressure := 1,
              is_primary := true }],
      e.event_type = .DOWN ∧ e.is_primary = true) ∧
    (runMac (.ok (0, 0, 100, 100)) (MacDevice.new capOk)
      ({ event_type := .DOWN, x := 1/2, y := 1/2, pressure := 1,
         is_primary := true } ::
        [{ event_type := .DOWN, x := 1/4, y := 1/4, pressure := 1,
           is_primary := true },
         { event_type := .DOWN, x := 3/4, y := 3/4, pressure := 1,
           is_primary := true }]) =
      some ({ (MacDevice.new capOk) with
              left_button_down := true, in_proximity := true },
        (if (MacDevice.new capOk).in_proximity then []
         else [MacPrimitive.tabletProximity true]) ++
        [MacPrimitive.mouseEvent .LeftMouseDown
          (map_coords ⟨0, 0, 1, 1⟩ 100 100 (1/2) (1/2)).1
          (map_coords ⟨0, 0, 1, 1⟩ 100 100 (1/2) (1/2)).2 1]) ∧
     ((if (MacDevice.new capOk).in_proximity then []
       else [MacPrimitive.tabletProximity true]) ++
        [MacPrimitive.mouseEvent .LeftMouseDown
          (map_coords ⟨0, 0, 1, 1⟩ 100 100 (1/2) (1/2)).1
          (map_coords ⟨0, 0, 1, 1⟩ 100 100 (1/2) (1/2)).2 1]).countP
      (MacPrimitive.isMouseOf .LeftMouseDown) = 1 ∧
     runBase { width := 100, height := 100 } (BaseDevice.new capOk)
      ({ event_type := .DOWN, x := 1/2, y := 1/2, pressure := 1,
         is_primary := true } ::
        [{ event_type := .DOWN, x := 1/4, y := 1/4, pressure := 1,
           is_primary := true },
         { event_type := .DOWN, x := 3/4, y := 3/4, pressure := 1,
           is_primary := true }]) =
      some ({ (BaseDevice.new capOk) with left_button_down := true },
        [BasePrimitive.moveTo
           (map_coords ⟨0, 0, 1, 1⟩ 100 100 (1/2) (1/2)).1
           (map_coords ⟨0, 0, 1, 1⟩ 100 100 (1/2) (1/2)).2,
         BasePrimitive.toggle true] ++
        List.map (fun e =>
          BasePrimitive.moveTo (map_coords ⟨0, 0, 1, 1⟩ 100 100 e.x e.y).1
            (map_coords ⟨0, 0, 1, 1⟩ 100 100 e.x e.y).2)
          [({ event_type := .DOWN, x := 1/4, y := 1/4, pressure := 1,
              is_primary := true } : PointerEvent),
           { event_type := .DOWN, x := 3/4, y := 3/4, pressure := 1,
             is_primary := true }]) ∧
     ([BasePrimitive.moveTo
         (map_coords ⟨0, 0, 1, 1⟩ 100 100 (1/2) (1/2)).1
         (map_coords ⟨0, 0, 1, 1⟩ 100 100 (1/2) (1/2)).2,
       BasePrimitive.toggle true] ++
       List.map (fun e =>
         BasePrimitive.moveTo (map_coords ⟨0, 0, 1, 1⟩ 100 100 e.x e.y).1
           (map_coords ⟨0, 0, 1, 1⟩ 100 100 e.x e.y).2)
         [({ event_type := .DOWN, x := 1/4, y := 1/4, pressure := 1,
             is_primary := true } : PointerEvent),
          { event_type := .DOWN, x := 3/4, y := 3/4, pressure := 1,
            is_primary := true }]).countP BasePrimitive.isToggle = 1) :=
  ⟨rfl, rfl, rfl, rfl, rfl, rfl, rfl, rfl, by simp,
   c4_down_idempotent 0 0 100 100 { width := 100, height := 100 }
     ⟨0, 0, 1, 1⟩ ⟨0, 0, 1, 1⟩ (MacDevice.new capOk) (BaseDevice.new capOk)
     _ _ rfl rfl rfl rfl rfl rfl rfl rfl (by simp)⟩

/-- C5: on the advanced (pressure-tablet) variant, in a DOWN-to-UP cycle of
accepted primary events, the proximity-enter primitive is emitted exactly
once — as the very first primitive, strictly before the button-down — and
the proximity-leave primitive is emitted exactly once, strictly after the
button-up primitive, which carries pressure 0; no proximity, button-down or
button-up primitive occurs anywhere between. -/
theorem c5_proximity_cycle (c : Capturable) (g : Geometry)
    (x0 y0 W H xd yd pd xu yu pu : ℚ) (mids : List PointerEvent)
    (hb : c.before_input = .ok ()) (hg : c.geometry = .ok g)
    (hmids : ∀ e ∈ mids, e.is_primary = true ∧
      (e.event_type = .DOWN ∨ e.event_type = .MOVE ∨
       e.event_type = .OVER ∨ e.event_type = .ENTER)) :
    ∃ t, runMac (.ok (x0, y0, W, H)) (MacDevice.new c)
      ({ event_type := .DOWN, x := xd, y := yd, pressure := pd,
         is_primary := true } ::
        (mids ++ [{ event_type := .UP, x := xu, y := yu, pressure := pu,
                    is_primary := true }])) =
      some (MacDevice.new c,
        MacPrimitive.tabletProximity true ::
        MacPrimitive.mouseEvent .LeftMouseDown (map_coords g W H xd yd).1
          (map_coords g W H xd yd).2 pd ::
        (t ++ [MacPrimitive.mouseEvent .LeftMouseUp (map_coords g W H xu yu).1
                 (map_coords g W H xu yu).2 0,
               MacPrimitive.tabletProximity false])) ∧
      t.countP MacPrimitive.isProximity = 0 ∧
      t.countP (MacPrimitive.isMouseOf .LeftMouseDown) = 0 ∧
      t.countP (MacPrimitive.isMouseOf .LeftMouseUp) = 0 := by
  have s1 := macos_step_down_fresh x0 y0 W H (MacDevice.new c) g
    { event_type := .DOWN, x := xd, y := yd, pressure := pd,
      is_primary := true } hb hg rfl rfl rfl
  simp only [MacDevice.new, Bool.false_eq_true, if_false,
    List.nil_append] at s1
  obtain ⟨t, ht, h1, h2, h3⟩ := runMac_cycle_mid x0 y0 W H g
    (MacDevice.mk c true true) hb hg rfl mids hmids
  have s3 := macos_step_upkind_held x0 y0 W H (MacDevice.mk c true true) g
    { event_type := .UP, x := xu, y := yu, pressure := pu,
      is_primary := true } hb hg rfl (Or.inl rfl) rfl
  simp only [if_true] at s3
  have hmidup : runMac (.ok (x0, y0, W, H)) (MacDevice.mk c true true)
      (mids ++ [{ event_type := .UP, x := xu, y := yu, pressure := pu,
                  is_primary := true }]) =
      some (MacDevice.mk c false false,
        t ++ [MacPrimitive.mouseEvent .LeftMouseUp (map_coords g W H xu yu).1
                (map_coords g W H xu yu).2 0,
              MacPrimitive.tabletProximity false]) := by
    rw [runMac_append, ht]
    simp [runMac, s3]
  refine ⟨t, ?_, h1, h2, h3⟩
  simp [runMac, s1, hmidup, MacDevice.new]

/-- Witness for C5: a concrete cycle DOWN, drag-MOVE, redundant DOWN, UP. -/
theorem c5_witness :
    capOk.before_input = .ok () ∧
    capOk.geometry = .ok ⟨0, 0, 1, 1⟩ ∧
    (∀ e ∈ [({ event_type := .MOVE, x := 1/4, y := 1/4, pressure := 1/2,
               is_primary := true } : PointerEvent),
            { event_type := .DOWN, x := 1/4, y := 1/4, pressure := 1/2,
              is_primary := true }],
      e.is_primary = true ∧
      (e.event_type = .DOWN ∨ e.event_type = .MOVE ∨
       e.event_type = .OVER ∨ e.event_type = .ENTER)) ∧
    (∃ t, runMac (.ok (0, 0, 100, 100)) (MacDevice.new capOk)
      ({ event_type := .DOWN, x := 1/2, y := 1/2, pressure := 1,
         is_primary := true } ::
        ([({ event_type := .MOVE, x := 1/4, y := 1/4, pressure := 1/2,
             is_primary := true } : PointerEvent),
          { event_type := .DOWN, x := 1/4, y := 1/4, pressure := 1/2,
            is_primary := true }] ++
          [{ event_type := .UP, x := 3/4, y := 3/4, pressure := 0,
             is_primary := true }])) =
      some (MacDevice.new capOk,
        MacPrimitive.tabletProximity true ::
        MacPrimitive.mouseEvent .LeftMouseDown
          (map_coords ⟨0, 0, 1, 1⟩ 100 100 (1/2) (1/2)).1
          (map_coords ⟨0, 0, 1, 1⟩ 100 100 (1/2) (1/2)).2 1 ::
        (t ++ [MacPrimitive.mouseEvent .LeftMouseUp
                 (map_coords ⟨0, 0, 1, 1⟩ 100 100 (3/4) (3/4)).1
                 (map_coords ⟨0, 0, 1, 1⟩ 100 100 (3/4) (3/4)).2 0,
               MacPrimitive.tabletProximity false])) ∧
      t.countP MacPrimitive.isProximity = 0 ∧
      t.countP (MacPrimitive.isMouseOf .LeftMouseDown) = 0 ∧
      t.countP (MacPrimitive.isMouseOf .LeftMouseUp) = 0) :=
  ⟨rfl, rfl, by simp,
   c5_proximity_cycle capOk ⟨0, 0, 1, 1⟩ 0 0 100 100 (1/2) (1/2) 1
     (3/4) (3/4) 0
     [{ event_type := .MOVE, x := 1/4, y := 1/4, pressure := 1/2,
        is_primary := true },
      { event_type := .DOWN, x := 1/4, y := 1/4, pressure := 1/2,
        is_primary := true }] rfl rfl (by simp)⟩

/-- C6: for every accepted pointer event the injected absolute position is
exactly `((x * width_rel + x_rel) * screen_width,
(y * height_rel + y_rel) * screen_height)` — no bounds clamping — on both
variants; and for fixed (non-degenerate) geometry and screen size the
mapping is strictly increasing in the normalized x. -/
theorem c6_coordinate_mapping (c : Capturable) (g : Geometry)
    (x0 y0 W H Wb Hb x y p xr : ℚ) (lbd prox : Bool)
    (hb : c.before_input = .ok ()) (hg : c.geometry = .ok g) :
    send_pointer_event_base { width := Wb, height := Hb }
      (BaseDevice.mk c lbd)
      { event_type := .MOVE, x := x, y := y, pressure := p,
        is_primary := true } =
      some (BaseDevice.mk c lbd,
        [BasePrimitive.moveTo ((x * g.width + g.x) * Wb)
          ((y * g.height + g.y) * Hb)]) ∧
    send_pointer_event_macos (.ok (x0, y0, W, H)) (MacDevice.mk c false prox)
      { event_type := .MOVE, x := x, y := y, pressure := p,
        is_primary := true } =
      some (MacDevice.mk c false prox,
        [MacPrimitive.mouseEvent .MouseMoved ((x * g.width + g.x) * W)
          ((y * g.height + g.y) * H) 0]) ∧
    (x < xr → 0 < g.width → 0 < W →
      (x * g.width + g.x) * W < (xr * g.width + g.x) * W) := by
  refine ⟨?_, ?_, fun hlt hw hW => ?_⟩
  · simp [send_pointer_event_base, hb, hg, map_coords]
  · simp [send_pointer_event_macos, hb, hg, map_coords]
  · exact mul_lt_mul_of_pos_right
      (add_lt_add_right (mul_lt_mul_of_pos_right hlt hw) g.x) hW

/-- Witness for C6 at a concrete geometry, screen and pair of x
coordinates. -/
theorem c6_witness :
    capOk.before_input = .ok () ∧
    capOk.geometry = .ok ⟨0, 0, 1, 1⟩ ∧
    (send_pointer_event_base { width := 100, height := 100 }
      (BaseDevice.mk capOk false)
      { event_type := .MOVE, x := 1/2, y := 1/2, pressure := 0,
        is_primary := true } =
      some (BaseDevice.mk capOk false,
        [BasePrimitive.moveTo ((1/2 * (1 : ℚ) + 0) * 100)
          ((1/2 * (1 : ℚ) + 0) * 100)]) ∧
     send_pointer_event_macos (.ok (0, 0, 100, 100))
      (MacDevice.mk capOk false false)
      { event_type := .MOVE, x := 1/2, y := 1/2, pressure := 0,
        is_primary := true } =
      some (MacDevice.mk capOk false false,
        [MacPrimitive.mouseEvent .MouseMoved ((1/2 * (1 : ℚ) + 0) * 100)
          ((1/2 * (1 : ℚ) + 0) * 100) 0]) ∧
     (1/2 * (1 : ℚ) + 0) * 100 < (3/4 * (1 : ℚ) + 0) * 100) :=
  have h := c6_coordinate_mapping capOk ⟨0, 0, 1, 1⟩ 0 0 100 100 100 100
    (1/2) (1/2) 0 (3/4) false false rfl rfl
  ⟨rfl, rfl, h.1, h.2.1, h.2.2 (by norm_num) (by norm_num) (by norm_num)⟩

/-- C7: `send_wheel_event` makes exactly one scroll-up call when `dy > 0`,
exactly one scroll-down call when `dy < 0`, and no call when `dy == 0` —
always exactly one unit, regardless of the magnitude of `dy`, on either
variant's device. -/
theorem c7_wheel_direction (dm : MacDevice) (db : BaseDevice)
    (e : WheelEvent) :
    (0 < e.dy →
      send_wheel_event dm e =
        (dm, [{ dir := ScrollDirection.Up, clicks := 1 }]) ∧
      send_wheel_event db e =
        (db, [{ dir := ScrollDirection.Up, clicks := 1 }])) ∧
    (e.dy < 0 →
      send_wheel_event dm e =
        (dm, [{ dir := ScrollDirection.Down, clicks := 1 }]) ∧
      send_wheel_event db e =
        (db, [{ dir := ScrollDirection.Down, clicks := 1 }])) ∧
    (e.dy = 0 →
      send_wheel_event dm e = (dm, []) ∧
      send_wheel_event db e = (db, [])) := by
  refine ⟨fun h => ?_, fun h => ?_, fun h => ?_⟩
  · exact ⟨by simp [send_wheel_event, h], by simp [send_wheel_event, h]⟩
  · have h' : ¬ (0 < e.dy) := by omega
    exact ⟨by simp [send_wheel_event, h, h'],
           by simp [send_wheel_event, h, h']⟩
  · exact ⟨by simp [send_wheel_event, h], by simp [send_wheel_event, h]⟩

/-- Witness for C7 at `dy = 7`, `dy = -2` and `dy = 0`. -/
theorem c7_witness :
    send_wheel_event (MacDevice.new capOk) ⟨7⟩ =
      (MacDevice.new capOk, [{ dir := ScrollDirection.Up, clicks := 1 }]) ∧
    send_wheel_event (BaseDevice.new capOk) ⟨7⟩ =
      (BaseDevice.new capOk, [{ dir := ScrollDirection.Up, clicks := 1 }]) ∧
    send_wheel_event (MacDevice.new capOk) ⟨-2⟩ =
      (MacDevice.new capOk, [{ dir := ScrollDirection.Down, clicks := 1 }]) ∧
    send_wheel_event (BaseDevice.new capOk) ⟨-2⟩ =
      (BaseDevice.new capOk, [{ dir := ScrollDirection.Down, clicks := 1 }]) ∧
    send_wheel_event (MacDevice.new capOk) ⟨0⟩ = (MacDevice.new capOk, []) ∧
    send_wheel_event (BaseDevice.new capOk) ⟨0⟩ = (BaseDevice.new capOk, []) :=
  have h7 := c7_wheel_direction (MacDevice.new capOk) (BaseDevice.new capOk)
    ⟨7⟩
  have hm := c7_wheel_direction (MacDevice.new capOk) (BaseDevice.new capOk)
    ⟨-2⟩
  have h0 := c7_wheel_direction (MacDevice.new capOk) (BaseDevice.new capOk)
    ⟨0⟩
  ⟨(h7.1 (by decide)).1, (h7.1 (by decide)).2,
   (hm.2.1 (by decide)).1, (hm.2.1 (by decide)).2,
   (h0.2.2 rfl).1, (h0.2.2 rfl).2⟩

/-- C8: for every DOWN or UP keyboard event whose `code` has no entry in
the fixed key table, `send_keyboard_event` issues one character-level key
toggle per character of the `key` field, in sequence, each carrying the
same modifier flags and the same down/up state, on either variant's
device (and, being total, it never fails for an unmapped code). -/
theorem c8_keyboard_fallback (dm : MacDevice) (db : BaseDevice)
    (e : KeyboardEvent) (hu : map_key e.code = none) :
    (e.event_type = .DOWN →
      send_keyboard_event dm e = (dm, e.key.toList.map fun ch =>
        { key := Key.Character ch, down := true, flags := flagsOf e }) ∧
      send_keyboard_event db e = (db, e.key.toList.map fun ch =>
        { key := Key.Character ch, down := true, flags := flagsOf e })) ∧
    (e.event_type = .UP →
      send_keyboard_event dm e = (dm, e.key.toList.map fun ch =>
        { key := Key.Character ch, down := false, flags := flagsOf e }) ∧
      send_keyboard_event db e = (db, e.key.toList.map fun ch =>
        { key := Key.Character ch, down := false, flags := flagsOf e })) := by
  constructor <;> intro h <;>
    exact ⟨by simp [send_keyboard_event, h, keyCalls, hu],
           by simp [send_keyboard_event, h, keyCalls, hu]⟩

/-- The keyboard event of the spec's fallback example: an unmapped code
with a non-ASCII key value. -/
def unknownKeyEvent : KeyboardEvent :=
  { code := "Unknown99", key := "é", event_type := .DOWN,
    ctrl := false, alt := false, meta := false, shift := false }

/-- Witness for C8 at the spec's example `KeyboardEvent{code: "Unknown99",
key: "é", event_type: DOWN}`. -/
theorem c8_witness :
    map_key unknownKeyEvent.code = none ∧
    unknownKeyEvent.event_type = .DOWN ∧
    (send_keyboard_event (MacDevice.new capOk) unknownKeyEvent =
      (MacDevice.new capOk, unknownKeyEvent.key.toList.map fun ch =>
        { key := Key.Character ch, down := true,
          flags := flagsOf unknownKeyEvent }) ∧
     send_keyboard_event (BaseDevice.new capOk) unknownKeyEvent =
      (BaseDevice.new capOk, unknownKeyEvent.key.toList.map fun ch =>
        { key := Key.Character ch, down := true,
          flags := flagsOf unknownKeyEvent })) :=
  ⟨rfl, rfl,
   (c8_keyboard_fallback (MacDevice.new capOk) (BaseDevice.new capOk)
     unknownKeyEvent rfl).1 rfl⟩

/-- C10: `send_wheel_event` and `send_keyboard_event` neither read nor
mutate the pointer state and never consult the capture target: on either
variant the device (capturable, `left_button_down`, `in_proximity`) is
returned unchanged, and the emitted calls are identical for any two device
states — in particular their traces contain only scroll or key-toggle
calls, never a pointer primitive or a capturable interaction. -/
theorem c10_wheel_keyboard_frame (dm dm' : MacDevice) (db : BaseDevice)
    (w : WheelEvent) (k : KeyboardEvent) :
    (send_wheel_event dm w).1 = dm ∧
    (send_wheel_event db w).1 = db ∧
    (send_keyboard_event dm k).1 = dm ∧
    (send_keyboard_event db k).1 = db ∧
    (send_wheel_event dm w).2 = (send_wheel_event dm' w).2 ∧
    (send_wheel_event dm w).2 = (send_wheel_event db w).2 ∧
    (send_keyboard_event dm k).2 = (send_keyboard_event dm' k).2 ∧
    (send_keyboard_event dm k).2 = (send_keyboard_event db k).2 := by
  refine ⟨rfl, rfl, ?_, ?_, rfl, rfl, ?_, ?_⟩ <;>
    cases h : k.event_type <;> simp [send_keyboard_event, h]

end Weylus
